import Mathlib

/-!
Shallow embedding of the WorkoutLogger Lightning Web Component
(src/force-app/main/default/lwc/workoutLogger/workoutLogger.js).

The component is a single-instance UI controller around seven remote
procedure calls. We model its tracked fields as a Lean structure
`LoggerState`, each async handler as a function from the pre-state and
the outcomes of the remote calls it awaits (an `Except Unit _` per call)
to the post-state, and the observable side effects (remote calls made,
toasts shown) as event logs carried in the state. JavaScript numbers
are modelled as `Int` (the values in play are integers; floating point
is out of scope), JS `null`/`undefined` as `Option.none`, and a thrown
rejection of an awaited call as the `Except.error` case.
-/

namespace WorkoutLogger

/-- Scalar value of a JavaScript record field, as far as this component
inspects one: absent, a number, or a string. -/
inductive JsVal where
  | undefined : JsVal
  | num : Int → JsVal
  | str : String → JsVal
deriving DecidableEq, Repr

/-- Truthiness of a `JsVal` under JS coercion: `undefined`, `0` and the
empty string are falsy. -/
def JsVal.truthy : JsVal → Bool
  | .undefined => false
  | .num n => n ≠ 0
  | .str s => s ≠ ""

/-- Workout set record as returned by `getWorkoutSets`: the fields this
component reads. Numeric fields that may be absent are `Option Int`. -/
structure WSet where
  Id : String
  Exercise__c : Option String
  exerciseName : Option String
  Reps : Option Int
  Weight_Kg : Option Int
  SetCount : Option Int
deriving DecidableEq, Repr

/-- Field access `row[fieldName]` on a set record, as a `JsVal`. -/
def WSet.getField (r : WSet) (f : String) : JsVal :=
  if f = "Id" then .str r.Id
  else if f = "Exercise__c" then (r.Exercise__c.map JsVal.str).getD .undefined
  else if f = "exerciseName" then (r.exerciseName.map JsVal.str).getD .undefined
  else if f = "Reps" then (r.Reps.map JsVal.num).getD .undefined
  else if f = "Weight_Kg" then (r.Weight_Kg.map JsVal.num).getD .undefined
  else if f = "SetCount" then (r.SetCount.map JsVal.num).getD .undefined
  else .undefined

/-- Session record returned by `getTodaySession` / `createWorkoutSession`. -/
structure Session where
  Id : String
  Session_Date__c : String
deriving DecidableEq, Repr

/-- Exercise record returned by `getExercisesByMuscleGroup`. -/
structure Exercise where
  Id : String
  Name : String
deriving DecidableEq, Repr

/-- Combobox option, built as a label/value pair. -/
structure SelOption where
  label : String
  value : String
deriving DecidableEq, Repr

/-- Toast event dispatched through `ShowToastEvent`. -/
structure Toast where
  title : String
  message : String
  variant : String
deriving DecidableEq, Repr

/-- Remote procedure call made by the component, with the arguments the
source passes. -/
inductive RemoteCall where
  | getTodaySession : RemoteCall
  | createWorkoutSession : RemoteCall
  | endWorkoutSession : Option String → RemoteCall
  | getMuscleGroups : RemoteCall
  | getExercisesByMuscleGroup : String → RemoteCall
  | getWorkoutSets : Option String → RemoteCall
  | createWorkoutSet : Option String → Option String → Option String →
      Option String → String → Option String → Option String → RemoteCall
deriving DecidableEq, Repr

/-- The four derived statistics fields. -/
structure Stats where
  totalSets : Nat
  uniqueExercises : Nat
  totalReps : Int
  maxWeight : Int
deriving DecidableEq, Repr

/-- Tracked state of the component, plus two event logs (`calls`,
`toasts`) recording the observable side effects in order. Form scalar
inputs hold strings, as `event.detail.value` of a lightning input is a
string. -/
structure LoggerState where
  sessionId : Option String
  sessionExists : Bool
  sessionDate : String
  muscleGroupOptions : List SelOption
  selectedMuscleGroup : Option String
  exerciseOptions : List SelOption
  selectedExerciseId : Option String
  reps : Option String
  weight : Option String
  unit : String
  rpe : Option String
  notes : Option String
  loggedSets : List WSet
  allLoggedSets : List WSet
  isLoading : Bool
  tableVisible : Bool
  totalSets : Nat
  uniqueExercises : Nat
  totalReps : Int
  maxWeight : Int
  sortedBy : String
  sortedDirection : String
  toasts : List Toast
  calls : List RemoteCall
deriving DecidableEq, Repr

/-- Initial values of the tracked fields when the component is
constructed (before `connectedCallback` runs). -/
def initialState : LoggerState :=
  { sessionId := none
    sessionExists := false
    sessionDate := ""
    muscleGroupOptions := []
    selectedMuscleGroup := none
    exerciseOptions := []
    selectedExerciseId := none
    reps := none
    weight := none
    unit := "kg"
    rpe := none
    notes := none
    loggedSets := []
    allLoggedSets := []
    isLoading := false
    tableVisible := true
    totalSets := 0
    uniqueExercises := 0
    totalReps := 0
    maxWeight := 0
    sortedBy := "SetCount"
    sortedDirection := "asc"
    toasts := []
    calls := [] }

/-- Record a remote call in the event log, in issue order. -/
def logCall (s : LoggerState) (c : RemoteCall) : LoggerState :=
  { s with calls := s.calls ++ [c] }

/-- The `showToast` helper: dispatches a toast event. -/
def showToast (s : LoggerState) (title message variant : String) : LoggerState :=
  { s with toasts := s.toasts ++ [⟨title, message, variant⟩] }

/-- Date locale formatting (`formatDate`) is presentation-only; no claim
inspects the formatted text, so the model keeps the raw date string. -/
def formatDate (dateString : String) : String := dateString

/-- Pure core of `calculateStatistics`, translated from the source body:
length, `new Set(...).size` over the exercise lookup values, a left fold
summing `set.Reps || 0`, and `Math.max(...weights, 0)` over
`set.Weight_Kg || 0`. Note `x || 0` sends absent and zero both to zero,
which `Option.getD 0` reproduces for numeric fields. -/
def calcStats (sets : List WSet) : Stats :=
  { totalSets := sets.length
    uniqueExercises := (sets.map (fun x => x.Exercise__c)).dedup.length
    totalReps := sets.foldl (fun sum x => sum + x.Reps.getD 0) 0
    maxWeight := sets.foldl (fun m x => max m (x.Weight_Kg.getD 0)) 0 }

/-- The `calculateStatistics` method: recomputes the four statistics
fields from `this.allLoggedSets`. -/
def calculateStatistics (s : LoggerState) : LoggerState :=
  let st := calcStats s.allLoggedSets
  { s with totalSets := st.totalSets
           uniqueExercises := st.uniqueExercises
           totalReps := st.totalReps
           maxWeight := st.maxWeight }

/-! ## Sorting (`sortData`)

JavaScript `Array.prototype.sort` with a user comparator is stable
(ES2019); we model it as a stable insertion sort parameterised by the
boolean relation "comparator result is non-positive". -/

/-- Insert `x` (a later element of the original list) into the already
sorted prefix `acc`, after every element it does not strictly precede:
this reproduces a stable sort. -/
def insertBy (le : α → α → Bool) (x : α) : List α → List α
  | [] => [x]
  | y :: ys => if le y x then y :: insertBy le x ys else x :: y :: ys

/-- Stable sort by the relation `le`: the model of `Array.sort` with a
comparator `cmp` where `le a b` means `cmp a b ≤ 0`. -/
def stableSortBy (le : α → α → Bool) (l : List α) : List α :=
  l.foldl (fun acc x => insertBy le x acc) []

/-- JS `ToNumber` on a string, restricted to the values this component
compares: the empty string converts to zero; a string that is not an
integer literal is treated as NaN (`none`), making every relational
comparison with it false. -/
def strAsNum (s : String) : Option Int :=
  if s = "" then some 0 else s.toInt?

/-- Numeric greater-than against a possibly-NaN operand. -/
def gtOpt (a : Int) : Option Int → Bool
  | some n => a > n
  | none => false

/-- Numeric greater-than with the possibly-NaN operand on the left. -/
def optGT : Option Int → Int → Bool
  | some n, b => n > b
  | none, _ => false

/-- JS abstract relational comparison `a > b` restricted to the values
this component compares: numbers compare numerically, strings compare
lexicographically, and a number compared with a string converts the
string to a number via `strAsNum`. -/
def jsGT : JsVal → JsVal → Bool
  | .num a, .num b => a > b
  | .str a, .str b => a > b
  | .num a, .str b => gtOpt a (strAsNum b)
  | .str a, .num b => optGT (strAsNum a) b
  | _, _ => false

/-- The coercion `value || ''` applied to each operand of the comparator
in `sortData`: any falsy value becomes the empty string. -/
def coerceEmpty (v : JsVal) : JsVal :=
  if v.truthy then v else .str ""

/-- The comparator body of `sortData`:
`(valueA > valueB) - (valueB > valueA)` on the coerced field values,
with JS booleans coerced to 1/0. -/
def threeWay (a b : JsVal) : Int :=
  (if jsGT a b then 1 else 0) - (if jsGT b a then 1 else 0)

/-- The `sortData(fieldName, sortDirection)` sort, as a pure function on
the row list: `reverse` is -1 for descending, 1 otherwise, and the list
is sorted by `reverse * threeWay` on the `|| ''`-coerced field values. -/
def sortData (fieldName sortDirection : String) (rows : List WSet) : List WSet :=
  let reverse : Int := if sortDirection = "desc" then -1 else 1
  stableSortBy
    (fun a b =>
      reverse * threeWay (coerceEmpty (a.getField fieldName))
        (coerceEmpty (b.getField fieldName)) ≤ 0)
    rows

/-! ## Handlers

Each async handler takes the outcome of every remote call it awaits as
an explicit `Except Unit _` argument (`error` models a rejected
promise); the `try`/`catch`/`finally` structure of the source becomes a
match on that outcome, with the `finally` assignment applied on both
branches. -/

/-- The `loadMuscleGroups` method. Its `catch` only logs to the console,
so a failure leaves `muscleGroupOptions` unchanged and raises nothing. -/
def loadMuscleGroups (s : LoggerState) (res : Except Unit (List String)) :
    LoggerState :=
  let s1 := logCall s .getMuscleGroups
  match res with
  | .ok groups =>
      { s1 with muscleGroupOptions := groups.map (fun g => ⟨g, g⟩) }
  | .error _ => s1

/-- The `loadWorkoutSets` method: sets the loading flag, fetches the
sets for `this.sessionId`, on success replaces the cache and the display
list and recomputes statistics, on failure shows an error toast; the
`finally` clears the loading flag either way. -/
def loadWorkoutSets (s : LoggerState) (res : Except Unit (List WSet)) :
    LoggerState :=
  let s1 := logCall { s with isLoading := true } (.getWorkoutSets s.sessionId)
  match res with
  | .ok sets =>
      let s2 := calculateStatistics
        { s1 with allLoggedSets := sets, loggedSets := sets }
      { s2 with isLoading := false }
  | .error _ =>
      { showToast s1 "Error" "Failed to load workout sets" "error" with
          isLoading := false }

/-- Remote outcomes awaited by `initializeLogger`: the session fetch,
then (only when a session was found) the set fetch, then the
muscle-group fetch. -/
structure InitEnv where
  sessionRes : Except Unit (Option Session)
  setsRes : Except Unit (List WSet)
  groupsRes : Except Unit (List String)
deriving Repr

/-- The `initializeLogger` method. Only `getTodaySession` can throw into
its `catch` (the two helper loads swallow their own failures), so a
session-fetch failure shows the initialization error toast and skips
both helper loads. -/
def initializeLogger (s : LoggerState) (env : InitEnv) : LoggerState :=
  let s1 := logCall { s with isLoading := true } .getTodaySession
  match env.sessionRes with
  | .error _ =>
      { showToast s1 "Error" "Failed to initialize workout logger" "error" with
          isLoading := false }
  | .ok none =>
      { loadMuscleGroups s1 env.groupsRes with isLoading := false }
  | .ok (some session) =>
      let s2 := { s1 with sessionId := some session.Id
                          sessionExists := true
                          sessionDate := formatDate session.Session_Date__c }
      let s3 := loadWorkoutSets s2 env.setsRes
      { loadMuscleGroups s3 env.groupsRes with isLoading := false }

/-- The `handleCreateSession` handler. -/
def handleCreateSession (s : LoggerState) (res : Except Unit Session) :
    LoggerState :=
  let s1 := logCall { s with isLoading := true } .createWorkoutSession
  match res with
  | .ok session =>
      { showToast
          { s1 with sessionId := some session.Id
                    sessionExists := true
                    sessionDate := formatDate session.Session_Date__c }
          "Success" "New workout session started" "success" with
          isLoading := false }
  | .error _ =>
      { showToast s1 "Error" "Failed to create session" "error" with
          isLoading := false }

/-- The `handleClearForm` handler: nulls the four scalar draft fields.
The input-widget validity reset it also performs is DOM-only and has no
counterpart in the tracked state. -/
def handleClearForm (s : LoggerState) : LoggerState :=
  { s with reps := none, weight := none, rpe := none, notes := none }

/-- The `handleAddSet` handler. `formValid` is the result of
`validateForm`, which scans the rendered required inputs; the template is
not part of the sources, so the result is taken as an oracle argument
(see `Reachable` for the availability gate). `refreshApex` on the plain
`allLoggedSets` array is a no-op refresh and is not modelled as a remote
call; the actual reload is the awaited `loadWorkoutSets`. -/
def handleAddSet (s : LoggerState) (formValid : Bool)
    (createRes : Except Unit Unit) (reloadRes : Except Unit (List WSet)) :
    LoggerState :=
  if formValid then
    let s1 := logCall { s with isLoading := true }
      (.createWorkoutSet s.sessionId s.selectedExerciseId s.reps s.weight
        s.unit s.rpe s.notes)
    match createRes with
    | .ok _ =>
        let s2 := loadWorkoutSets (handleClearForm s1) reloadRes
        { showToast s2 "Success" "Workout set added successfully" "success" with
            isLoading := false }
    | .error _ =>
        { showToast s1 "Error" "Failed to add workout set" "error" with
            isLoading := false }
  else s

/-- The `handleEndSession` handler: `confirmed` is the result of the
blocking `confirm` prompt; declining returns before any effect. -/
def handleEndSession (s : LoggerState) (confirmed : Bool)
    (res : Except Unit Unit) : LoggerState :=
  if confirmed then
    let s1 := logCall { s with isLoading := true }
      (.endWorkoutSession s.sessionId)
    match res with
    | .ok _ =>
        { showToast
            { s1 with sessionId := none
                      sessionExists := false
                      sessionDate := ""
                      loggedSets := []
                      allLoggedSets := [] }
            "Success" "Workout session ended successfully" "success" with
            isLoading := false }
    | .error _ =>
        { showToast s1 "Error" "Failed to end workout session" "error" with
            isLoading := false }
  else s

/-- The `handleMuscleGroupChange` handler: stores the new group and
clears the selected exercise and the exercise options before the fetch;
the fetch runs only when the new group value is truthy, and its `catch`
only logs, leaving the cleared options in place. -/
def handleMuscleGroupChange (s : LoggerState) (value : String)
    (res : Except Unit (List Exercise)) : LoggerState :=
  let s1 := { s with selectedMuscleGroup := some value
                     selectedExerciseId := none
                     exerciseOptions := [] }
  if value = "" then s1
  else
    let s2 := logCall s1 (.getExercisesByMuscleGroup value)
    match res with
    | .ok exercises =>
        { s2 with exerciseOptions := exercises.map (fun ex => ⟨ex.Name, ex.Id⟩) }
    | .error _ => s2

/-- The `handleRefreshTable` handler: starts an (un-awaited) reload and
shows an info toast. The model serialises the reload before the toast;
only toast membership, not interleaving order, is claimed anywhere. -/
def handleRefreshTable (s : LoggerState) (res : Except Unit (List WSet)) :
    LoggerState :=
  showToast (loadWorkoutSets s res) "Info" "Refreshing workout data..." "info"

/-- The `toggleTableVisibility` handler. -/
def toggleTableVisibility (s : LoggerState) : LoggerState :=
  { s with tableVisible := !s.tableVisible }

/-- The `handleSortData` handler: stores the requested field and
direction and sorts the display list in place. -/
def handleSortData (s : LoggerState) (fieldName sortDirection : String) :
    LoggerState :=
  { s with sortedBy := fieldName
           sortedDirection := sortDirection
           loggedSets := sortData fieldName sortDirection s.loggedSets }

/-- The `handleExerciseChange` handler. -/
def handleExerciseChange (s : LoggerState) (v : String) : LoggerState :=
  { s with selectedExerciseId := some v }

/-- The `handleRepsChange` handler. -/
def handleRepsChange (s : LoggerState) (v : String) : LoggerState :=
  { s with reps := some v }

/-- The `handleWeightChange` handler. -/
def handleWeightChange (s : LoggerState) (v : String) : LoggerState :=
  { s with weight := some v }

/-- The `handleUnitChange` handler. -/
def handleUnitChange (s : LoggerState) (v : String) : LoggerState :=
  { s with unit := v }

/-- The `handleRpeChange` handler. -/
def handleRpeChange (s : LoggerState) (v : String) : LoggerState :=
  { s with rpe := some v }

/-- The `handleNotesChange` handler. -/
def handleNotesChange (s : LoggerState) (v : String) : LoggerState :=
  { s with notes := some v }

/-! ## Reachability

The handlers above can each fire in any state the rendered UI offers
them in. The component template (`workoutLogger.html`) is not among the
sources, so the availability of the add-set control is modelled from the
spec. -/

/-- Modelled from the spec: the component template, which decides when
the add-set control is rendered, is missing from the sources; per the
spec invariant "a set cannot be created without an active session id"
and the session-gated control flow of section 2, the add-set handler can
only fire while a session exists. -/
def addSetAvailable (s : LoggerState) : Bool := s.sessionExists

/-- One user- or lifecycle-triggered handler invocation, from pre-state
to post-state, for every choice of remote outcomes. -/
inductive Step : LoggerState → LoggerState → Prop where
  | init (s : LoggerState) (env : InitEnv) : Step s (initializeLogger s env)
  | createSession (s : LoggerState) (res : Except Unit Session) :
      Step s (handleCreateSession s res)
  | muscleGroupChange (s : LoggerState) (v : String)
      (res : Except Unit (List Exercise)) :
      Step s (handleMuscleGroupChange s v res)
  | addSet (s : LoggerState) (fv : Bool) (cres : Except Unit Unit)
      (rres : Except Unit (List WSet)) (hav : addSetAvailable s = true) :
      Step s (handleAddSet s fv cres rres)
  | endSession (s : LoggerState) (c : Bool) (res : Except Unit Unit) :
      Step s (handleEndSession s c res)
  | clearForm (s : LoggerState) : Step s (handleClearForm s)
  | refreshTable (s : LoggerState) (res : Except Unit (List WSet)) :
      Step s (handleRefreshTable s res)
  | toggle (s : LoggerState) : Step s (toggleTableVisibility s)
  | sortStep (s : LoggerState) (f d : String) : Step s (handleSortData s f d)
  | exerciseChange (s : LoggerState) (v : String) :
      Step s (handleExerciseChange s v)
  | repsChange (s : LoggerState) (v : String) : Step s (handleRepsChange s v)
  | weightChange (s : LoggerState) (v : String) :
      Step s (handleWeightChange s v)
  | unitChange (s : LoggerState) (v : String) : Step s (handleUnitChange s v)
  | rpeChange (s : LoggerState) (v : String) : Step s (handleRpeChange s v)
  | notesChange (s : LoggerState) (v : String) : Step s (handleNotesChange s v)

/-- States reachable from the freshly constructed component by handler
invocations. -/
inductive Reachable : LoggerState → Prop where
  | base : Reachable initialState
  | step {s t : LoggerState} : Reachable s → Step s t → Reachable t

/-- A remote call is admissible unless it is a set creation carrying no
session id. -/
def noOrphanCreate : RemoteCall → Bool
  | .createWorkoutSet none _ _ _ _ _ _ => false
  | _ => true

/-- Inductive invariant for C1: every logged call is admissible, and the
session-exists flag implies a present session id. -/
def Inv (s : LoggerState) : Prop :=
  s.calls.all noOrphanCreate = true ∧
    (s.sessionExists = true → s.sessionId.isSome = true)

theorem inv_of_eq_fields {s t : LoggerState} (h : Inv s)
    (hc : t.calls = s.calls) (he : t.sessionExists = s.sessionExists)
    (hi : t.sessionId = s.sessionId) : Inv t := by
  obtain ⟨h1, h2⟩ := h
  exact ⟨by rw [hc]; exact h1, by rw [he, hi]; exact h2⟩

theorem inv_loadMuscleGroups {s : LoggerState}
    (res : Except Unit (List String)) (h : Inv s) :
    Inv (loadMuscleGroups s res) := by
  obtain ⟨h1, h2⟩ := h
  cases res <;>
    exact ⟨by simp [loadMuscleGroups, logCall, List.all_append, h1,
      noOrphanCreate], h2⟩

theorem inv_loadWorkoutSets {s : LoggerState}
    (res : Except Unit (List WSet)) (h : Inv s) :
    Inv (loadWorkoutSets s res) := by
  obtain ⟨h1, h2⟩ := h
  cases res <;>
    exact ⟨by simp [loadWorkoutSets, logCall, showToast, calculateStatistics,
      List.all_append, h1, noOrphanCreate], h2⟩

theorem inv_initializeLogger {s : LoggerState} (env : InitEnv) (h : Inv s) :
    Inv (initializeLogger s env) := by
  obtain ⟨sres, setsRes, groupsRes⟩ := env
  obtain ⟨h1, h2⟩ := h
  cases sres with
  | error e =>
      exact ⟨by simp [initializeLogger, logCall, showToast, List.all_append,
        h1, noOrphanCreate], h2⟩
  | ok osession =>
      cases osession with
      | none =>
          have := inv_loadMuscleGroups (s := logCall
            { s with isLoading := true } .getTodaySession) groupsRes
            ⟨by simp [logCall, List.all_append, h1, noOrphanCreate], h2⟩
          exact inv_of_eq_fields this rfl rfl rfl
      | some session =>
          have hbase : Inv { logCall { s with isLoading := true }
              .getTodaySession with
              sessionId := some session.Id
              sessionExists := true
              sessionDate := formatDate session.Session_Date__c } :=
            ⟨by simp [logCall, List.all_append, h1, noOrphanCreate],
              fun _ => rfl⟩
          have := inv_loadMuscleGroups groupsRes
            (inv_loadWorkoutSets setsRes hbase)
          exact inv_of_eq_fields this rfl rfl rfl

theorem inv_handleCreateSession {s : LoggerState}
    (res : Except Unit Session) (h : Inv s) :
    Inv (handleCreateSession s res) := by
  obtain ⟨h1, h2⟩ := h
  cases res with
  | ok session =>
      exact ⟨by simp [handleCreateSession, logCall, showToast,
        List.all_append, h1, noOrphanCreate], fun _ => rfl⟩
  | error e =>
      exact ⟨by simp [handleCreateSession, logCall, showToast,
        List.all_append, h1, noOrphanCreate], h2⟩

theorem inv_handleAddSet {s : LoggerState} (fv : Bool)
    (cres : Except Unit Unit) (rres : Except Unit (List WSet))
    (hav : addSetAvailable s = true) (h : Inv s) :
    Inv (handleAddSet s fv cres rres) := by
  obtain ⟨h1, h2⟩ := h
  have hsid : s.sessionId.isSome = true := h2 hav
  obtain ⟨sid, hsid⟩ := Option.isSome_iff_exists.mp hsid
  cases fv with
  | false => exact ⟨h1, h2⟩
  | true =>
      have hbase : Inv (logCall { s with isLoading := true }
          (.createWorkoutSet s.sessionId s.selectedExerciseId s.reps s.weight
            s.unit s.rpe s.notes)) :=
        ⟨by simp [logCall, List.all_append, h1, hsid, noOrphanCreate], h2⟩
      cases cres with
      | ok u =>
          have hclear : Inv (handleClearForm (logCall
              { s with isLoading := true }
              (.createWorkoutSet s.sessionId s.selectedExerciseId s.reps
                s.weight s.unit s.rpe s.notes))) :=
            inv_of_eq_fields hbase rfl rfl rfl
          have := inv_loadWorkoutSets rres hclear
          obtain ⟨g1, g2⟩ := this
          exact ⟨by simp [handleAddSet, showToast, List.all_append, g1],
            by simpa [handleAddSet, showToast] using g2⟩
      | error e =>
          obtain ⟨g1, g2⟩ := hbase
          exact ⟨by simp [handleAddSet, showToast, List.all_append, g1],
            by simpa [handleAddSet, showToast] using g2⟩

theorem inv_handleEndSession {s : LoggerState} (c : Bool)
    (res : Except Unit Unit) (h : Inv s) :
    Inv (handleEndSession s c res) := by
  obtain ⟨h1, h2⟩ := h
  cases c with
  | false => exact ⟨h1, h2⟩
  | true =>
      cases res with
      | ok u =>
          exact ⟨by simp [handleEndSession, logCall, showToast,
            List.all_append, h1, noOrphanCreate], by
              simp [handleEndSession, logCall, showToast]⟩
      | error e =>
          exact ⟨by simp [handleEndSession, logCall, showToast,
            List.all_append, h1, noOrphanCreate], h2⟩

theorem inv_handleMuscleGroupChange {s : LoggerState} (v : String)
    (res : Except Unit (List Exercise)) (h : Inv s) :
    Inv (handleMuscleGroupChange s v res) := by
  obtain ⟨h1, h2⟩ := h
  by_cases hv : v = "" <;> cases res <;>
    refine ⟨?_, ?_⟩ <;>
      simp_all [handleMuscleGroupChange, logCall, List.all_append,
        noOrphanCreate, hv]

theorem inv_handleRefreshTable {s : LoggerState}
    (res : Except Unit (List WSet)) (h : Inv s) :
    Inv (handleRefreshTable s res) := by
  have := inv_loadWorkoutSets res h
  exact inv_of_eq_fields this rfl rfl rfl

/-- Every reachable state satisfies the C1 invariant. -/
theorem reachable_inv {s : LoggerState} (h : Reachable s) : Inv s := by
  induction h with
  | base => exact ⟨rfl, by simp [initialState]⟩
  | step hr hstep ih =>
      cases hstep with
      | init env => exact inv_initializeLogger env ih
      | createSession res => exact inv_handleCreateSession res ih
      | muscleGroupChange v res => exact inv_handleMuscleGroupChange v res ih
      | addSet fv cres rres hav => exact inv_handleAddSet fv cres rres hav ih
      | endSession c res => exact inv_handleEndSession c res ih
      | clearForm => exact inv_of_eq_fields ih rfl rfl rfl
      | refreshTable res => exact inv_handleRefreshTable res ih
      | toggle => exact inv_of_eq_fields ih rfl rfl rfl
      | sortStep f d => exact inv_of_eq_fields ih rfl rfl rfl
      | exerciseChange v => exact inv_of_eq_fields ih rfl rfl rfl
      | repsChange v => exact inv_of_eq_fields ih rfl rfl rfl
      | weightChange v => exact inv_of_eq_fields ih rfl rfl rfl
      | unitChange v => exact inv_of_eq_fields ih rfl rfl rfl
      | rpeChange v => exact inv_of_eq_fields ih rfl rfl rfl
      | notesChange v => exact inv_of_eq_fields ih rfl rfl rfl

/-! ## Spec-side definitions

Definitions written from the specification's words, to be compared with
the source-side definitions above. -/

/-- Stated from the spec: the count of distinct exercise identifiers
among the sets. -/
def specUniqueExercises (sets : List WSet) : Nat :=
  (sets.map (fun x => x.Exercise__c)).toFinset.card

/-- Stated from the spec: the sum of rep counts, missing or undefined
reps treated as zero. -/
def specTotalReps (sets : List WSet) : Int :=
  (sets.map (fun x => x.Reps.getD 0)).sum

/-- Stated from the spec: the maximum of all set weights, missing or
undefined treated as zero, and zero when no sets exist. -/
def specMaxWeight (sets : List WSet) : Int :=
  (sets.map (fun x => x.Weight_Kg.getD 0)).foldr max 0

/-- Stated from the spec: a three-way -1/0/1 ordering derived from the
greater-than comparison on two coerced values. -/
def specThreeWay (a b : JsVal) : Int :=
  if jsGT a b then 1 else if jsGT b a then -1 else 0

/-- Stated from the spec: the `sort(field, direction)` comparator,
missing values coerced to the empty string, three-way on the coerced
values, multiplied by -1 when the direction is descending. -/
def specComparator (field direction : String) (a b : WSet) : Int :=
  (if direction = "desc" then -1 else 1) *
    specThreeWay (coerceEmpty (WSet.getField a field))
      (coerceEmpty (WSet.getField b field))

/-- The four statistics fields of a state, gathered as a `Stats`. -/
def statsFields (t : LoggerState) : Stats :=
  ⟨t.totalSets, t.uniqueExercises, t.totalReps, t.maxWeight⟩

/-- A session found on initialization holding one logged set: a concrete
state used to exercise the handlers in witnesses and counterexamples. -/
def exLoadedState : LoggerState :=
  initializeLogger initialState
    ⟨.ok (some ⟨"S1", "2026-03-02"⟩),
      .ok [⟨"ws1", some "ex1", some "Bench Press", some 5, some 40, some 1⟩],
      .ok ["Chest"]⟩

/-! ## Auxiliary lemmas -/

theorem foldr_max_shift (l : List Int) :
    ∀ a b : Int, l.foldr max (max a b) = max b (l.foldr max a) := by
  induction l with
  | nil => intro a b; simp [max_comm]
  | cons x xs ih => intro a b; simp [List.foldr, ih, max_left_comm]

theorem foldl_max_eq_foldr_max (l : List Int) :
    ∀ a : Int, l.foldl max a = l.foldr max a := by
  induction l with
  | nil => intro a; rfl
  | cons x xs ih =>
      intro a
      calc (x :: xs).foldl max a = xs.foldl max (max a x) := rfl
        _ = xs.foldr max (max a x) := ih _
        _ = max x (xs.foldr max a) := foldr_max_shift xs a x
        _ = (x :: xs).foldr max a := rfl

theorem threeWay_num_opt (m : Int) (o : Option Int) :
    (if gtOpt m o then (1 : Int) else 0) - (if optGT o m then 1 else 0) =
      if gtOpt m o then 1 else if optGT o m then -1 else 0 := by
  cases o with
  | none => simp [gtOpt, optGT]
  | some k => simp only [gtOpt, optGT, decide_eq_true_eq]; split_ifs <;> omega

theorem threeWay_opt_num (n : Int) (o : Option Int) :
    (if optGT o n then (1 : Int) else 0) - (if gtOpt n o then 1 else 0) =
      if optGT o n then 1 else if gtOpt n o then -1 else 0 := by
  cases o with
  | none => simp [gtOpt, optGT]
  | some k => simp only [gtOpt, optGT, decide_eq_true_eq]; split_ifs <;> omega

theorem threeWay_eq_specThreeWay (a b : JsVal) :
    threeWay a b = specThreeWay a b := by
  rcases a with _ | m | x <;> rcases b with _ | n | y <;>
    simp only [threeWay, specThreeWay, jsGT] <;> try rfl
  · simp only [decide_eq_true_eq]; split_ifs <;> omega
  · exact threeWay_num_opt m (strAsNum y)
  · exact threeWay_opt_num n (strAsNum x)
  · simp only [decide_eq_true_eq]
    split_ifs with h1 h2 h2 <;> try norm_num
    exact absurd h2 (lt_asymm h1)

/-! ## Claim theorems -/

/-- Claim C3: for every list of sets, the statistics computation returns
the count of sets, the count of distinct exercise identifiers, the sum
of rep counts with missing reps as zero, and the maximum weight with
missing weights as zero (zero on the empty list); on the empty list all
four results are 0, reps 5, 10 and missing sum to 15, and weights 40,
missing and 60 have maximum 60. -/
theorem C3_computeStatistics_correct :
    (∀ sets : List WSet, calcStats sets =
      ⟨sets.length, specUniqueExercises sets, specTotalReps sets,
        specMaxWeight sets⟩) ∧
    calcStats [] = ⟨0, 0, 0, 0⟩ ∧
    (calcStats [⟨"a", some "e1", some "E1", some 5, some 40, some 1⟩,
      ⟨"b", some "e1", some "E2", some 10, none, some 2⟩,
      ⟨"c", some "e2", some "E3", none, some 60, some 3⟩]).totalReps = 15 ∧
    (calcStats [⟨"a", some "e1", some "E1", some 5, some 40, some 1⟩,
      ⟨"b", some "e1", some "E2", some 10, none, some 2⟩,
      ⟨"c", some "e2", some "E3", none, some 60, some 3⟩]).maxWeight = 60 := by
  refine ⟨?_, by decide, by decide, by decide⟩
  intro sets
  simp only [calcStats, Stats.mk.injEq]
  refine ⟨trivial, ?_, ?_, ?_⟩
  · simp [specUniqueExercises, List.card_toFinset]
  · simp [specTotalReps, List.sum_eq_foldl, List.foldl_map]
  · rw [specMaxWeight, ← foldl_max_eq_foldr_max, List.foldl_map]

/-- Claim C4: declining the end-session confirmation leaves the whole
state (calls and toasts included) unchanged; on acceptance the session
id, date, existence flag and both set lists are cleared exactly when the
remote closure succeeds; on remote failure an error toast is surfaced
and session state is unchanged. -/
theorem C4_end_session_flow :
    (∀ (s : LoggerState) (res : Except Unit Unit),
      handleEndSession s false res = s) ∧
    (∀ s : LoggerState,
      (handleEndSession s true (.ok ())).sessionId = none ∧
      (handleEndSession s true (.ok ())).sessionExists = false ∧
      (handleEndSession s true (.ok ())).sessionDate = "" ∧
      (handleEndSession s true (.ok ())).loggedSets = [] ∧
      (handleEndSession s true (.ok ())).allLoggedSets = []) ∧
    (∀ (s : LoggerState) (e : Unit),
      (handleEndSession s true (.error e)).sessionId = s.sessionId ∧
      (handleEndSession s true (.error e)).sessionExists = s.sessionExists ∧
      (handleEndSession s true (.error e)).sessionDate = s.sessionDate ∧
      (handleEndSession s true (.error e)).loggedSets = s.loggedSets ∧
      (handleEndSession s true (.error e)).allLoggedSets = s.allLoggedSets ∧
      (⟨"Error", "Failed to end workout session", "error"⟩ : Toast) ∈
        (handleEndSession s true (.error e)).toasts) := by
  refine ⟨fun s res => rfl, fun s => ⟨rfl, rfl, rfl, rfl, rfl⟩,
    fun s e => ⟨rfl, rfl, rfl, rfl, rfl, ?_⟩⟩
  simp [handleEndSession, showToast, logCall]

/-- Claim C9: each of the five operations that set the loading flag
(initialize, load sets, create session, add set past validation, end
session past confirmation) leaves `isLoading` false on completion, for
every remote outcome. -/
theorem C9_loading_flag_cleared :
    (∀ (s : LoggerState) (env : InitEnv),
      (initializeLogger s env).isLoading = false) ∧
    (∀ (s : LoggerState) (res : Except Unit (List WSet)),
      (loadWorkoutSets s res).isLoading = false) ∧
    (∀ (s : LoggerState) (res : Except Unit Session),
      (handleCreateSession s res).isLoading = false) ∧
    (∀ (s : LoggerState) (cres : Except Unit Unit)
      (rres : Except Unit (List WSet)),
      (handleAddSet s true cres rres).isLoading = false) ∧
    (∀ (s : LoggerState) (res : Except Unit Unit),
      (handleEndSession s true res).isLoading = false) := by
  refine ⟨?_, ?_, ?_, ?_, ?_⟩
  · rintro s ⟨(e | (_ | session)), setsRes, groupsRes⟩ <;> rfl
  · rintro s (e | sets) <;> rfl
  · rintro s (e | session) <;> rfl
  · rintro s (e | u) rres <;> rfl
  · rintro s (e | u) <;> rfl

/-- Claim C10: creating a session, whether the remote call succeeds or
fails, leaves the set cache, the display list and the four statistics
fields unchanged, and makes exactly the one session-creation call (no
set load and no clearing). -/
theorem C10_createSession_frame :
    ∀ (s : LoggerState) (res : Except Unit Session),
      (handleCreateSession s res).allLoggedSets = s.allLoggedSets ∧
      (handleCreateSession s res).loggedSets = s.loggedSets ∧
      (handleCreateSession s res).totalSets = s.totalSets ∧
      (handleCreateSession s res).uniqueExercises = s.uniqueExercises ∧
      (handleCreateSession s res).totalReps = s.totalReps ∧
      (handleCreateSession s res).maxWeight = s.maxWeight ∧
      (handleCreateSession s res).calls =
        s.calls ++ [RemoteCall.createWorkoutSession] := by
  rintro s (e | session) <;> exact ⟨rfl, rfl, rfl, rfl, rfl, rfl, rfl⟩

/-- Claim C1: in every reachable state, every remote call made so far is
admissible, in particular every set-creation call carries a session id:
with no active session id no set-creation call is ever made. The
availability of the add-set control is modelled from the spec (see
`addSetAvailable`), as the deciding template is not among the sources. -/
theorem C1_no_set_creation_without_session (s : LoggerState)
    (h : Reachable s) : s.calls.all noOrphanCreate = true :=
  (reachable_inv h).1

/-- Witness for C1: a concrete reachable state that has actually issued
a set-creation call (initialize finds a session, then a set is added). -/
theorem C1_no_set_creation_without_session_witness :
    ((handleAddSet exLoadedState true (.ok ()) (.ok [])).calls.all
      noOrphanCreate) = true :=
  C1_no_set_creation_without_session _
    (Reachable.step
      (Reachable.step Reachable.base
        (Step.init initialState
          ⟨.ok (some ⟨"S1", "2026-03-02"⟩),
            .ok [⟨"ws1", some "ex1", some "Bench Press", some 5, some 40,
              some 1⟩],
            .ok ["Chest"]⟩))
      (Step.addSet exLoadedState true (.ok ()) (.ok []) (by decide)))

/-- Counterexample to claim C2: ending the session from a state holding
one loaded set succeeds, empties the loaded set list, but leaves
`totalSets` at 1, while the statistics computed from the now-empty list
are all zero: the statistics fields are stale after end-session. -/
theorem C2_counterexample :
    (handleEndSession exLoadedState true (.ok ())).allLoggedSets = [] ∧
    (handleEndSession exLoadedState true (.ok ())).totalSets = 1 ∧
    statsFields (handleEndSession exLoadedState true (.ok ())) ≠
      calcStats (handleEndSession exLoadedState true (.ok ())).allLoggedSets := by
  exact ⟨rfl, rfl, by decide⟩

/-- Claim C2 as amended: after loading sets and after a successful
add-set (which reloads), the four statistics fields equal the statistics
computed from the current loaded set list; ending the session clears
both set lists but leaves the four statistics fields at their pre-end
values, stale relative to the now-empty list. -/
theorem C2_statistics_synchronisation :
    (∀ (s : LoggerState) (sets : List WSet),
      statsFields (loadWorkoutSets s (.ok sets)) =
        calcStats (loadWorkoutSets s (.ok sets)).allLoggedSets) ∧
    (∀ (s : LoggerState) (sets : List WSet),
      statsFields (handleAddSet s true (.ok ()) (.ok sets)) =
        calcStats (handleAddSet s true (.ok ()) (.ok sets)).allLoggedSets) ∧
    (∀ (s : LoggerState) (c : Bool) (res : Except Unit Unit),
      statsFields (handleEndSession s c res) = statsFields s) ∧
    (∀ s : LoggerState,
      (handleEndSession s true (.ok ())).allLoggedSets = [] ∧
      (handleEndSession s true (.ok ())).loggedSets = []) := by
  refine ⟨fun s sets => rfl, fun s sets => rfl, ?_, fun s => ⟨rfl, rfl⟩⟩
  rintro s (_ | _) (e | u) <;> rfl

/-- Counterexample to claim C5: when the session fetch itself fails,
initialization makes no further remote call at all, in particular the
muscle-group options are not loaded, contradicting "loads the
muscle-group options in every run, regardless of whether fetching
today's session fails". -/
theorem C5_counterexample :
    (initializeLogger initialState ⟨.error (), .ok [], .ok ["Chest"]⟩).calls =
      [RemoteCall.getTodaySession] ∧
    RemoteCall.getMuscleGroups ∉
      (initializeLogger initialState
        ⟨.error (), .ok [], .ok ["Chest"]⟩).calls := by
  exact ⟨rfl, by decide⟩

/-- Claim C5 as amended: initialization loads the muscle-group options
whenever the session fetch succeeds, whether or not a session exists;
if the session fetch fails, the muscle-group options are not loaded
(the only call made is the session fetch), a generic initialization
error is signalled, and the state remains no-session; when no session
is found, the session flag and id are untouched and no set-loading call
occurs. -/
theorem C5_initialize_flow :
    (∀ (s : LoggerState) (r : Option Session)
      (setsRes : Except Unit (List WSet))
      (groupsRes : Except Unit (List String)),
      RemoteCall.getMuscleGroups ∈
        (initializeLogger s ⟨.ok r, setsRes, groupsRes⟩).calls) ∧
    (∀ (e : Unit) (setsRes : Except Unit (List WSet))
      (groupsRes : Except Unit (List String)),
      (initializeLogger initialState ⟨.error e, setsRes, groupsRes⟩).calls =
        [RemoteCall.getTodaySession] ∧
      (initializeLogger initialState
        ⟨.error e, setsRes, groupsRes⟩).sessionExists = false ∧
      (initializeLogger initialState
        ⟨.error e, setsRes, groupsRes⟩).sessionId = none ∧
      (⟨"Error", "Failed to initialize workout logger", "error"⟩ : Toast) ∈
        (initializeLogger initialState ⟨.error e, setsRes, groupsRes⟩).toasts) ∧
    (∀ (s : LoggerState) (setsRes : Except Unit (List WSet))
      (groupsRes : Except Unit (List String)),
      (initializeLogger s ⟨.ok none, setsRes, groupsRes⟩).calls =
        s.calls ++ [RemoteCall.getTodaySession, RemoteCall.getMuscleGroups] ∧
      (initializeLogger s ⟨.ok none, setsRes, groupsRes⟩).sessionExists =
        s.sessionExists ∧
      (initializeLogger s ⟨.ok none, setsRes, groupsRes⟩).sessionId =
        s.sessionId) := by
  refine ⟨?_, ?_, ?_⟩
  · rintro s (_ | session) (esets | sets) (egroups | groups) <;>
      simp [initializeLogger, loadMuscleGroups, loadWorkoutSets, logCall,
        showToast, calculateStatistics]
  · rintro e (esets | sets) (egroups | groups) <;>
      exact ⟨rfl, rfl, rfl, by simp [initializeLogger, logCall, showToast,
        initialState]⟩
  · rintro s (esets | sets) (egroups | groups) <;>
      refine ⟨?_, rfl, rfl⟩ <;>
        simp [initializeLogger, loadMuscleGroups, logCall]

/-- Rows with SetCount 1, 2 and 3, used in the C6 example. -/
def exRow1 : WSet := ⟨"a", some "e1", some "E1", some 5, some 40, some 1⟩

/-- Row with SetCount 2. -/
def exRow2 : WSet := ⟨"b", some "e1", some "E2", some 8, some 50, some 2⟩

/-- Row with SetCount 3. -/
def exRow3 : WSet := ⟨"c", some "e2", some "E3", some 6, some 60, some 3⟩

/-- Counterexample to claim C6: sorting rows with SetCount 1, 2, 3 by
SetCount ascending yields them in the order 1, 2, 3 and not, as the
claim states, in the order 3, 2, 1 (the claim swaps the outcomes of the
ascending and descending sorts). -/
theorem C6_counterexample :
    sortData "SetCount" "asc" [exRow1, exRow2, exRow3] =
      [exRow1, exRow2, exRow3] ∧
    sortData "SetCount" "asc" [exRow1, exRow2, exRow3] ≠
      [exRow3, exRow2, exRow1] := by
  exact ⟨by decide, by decide⟩

/-- Claim C6 as amended: for every field name and direction, the sort
reorders the display list by the comparator that coerces a falsy field
value to the empty string, produces a three-way -1/0/1 result derived
from the greater-than comparison on the coerced values, and multiplies
the result by -1 when the direction is descending; in particular,
sorting sets with SetCount 1, 2, 3 ascending yields the order 1, 2, 3
and then sorting descending yields the reversed order 3, 2, 1. -/
theorem C6_sort_comparator :
    (∀ (f d : String) (rows : List WSet),
      sortData f d rows =
        stableSortBy (fun a b => specComparator f d a b ≤ 0) rows) ∧
    sortData "SetCount" "asc" [exRow1, exRow2, exRow3] =
      [exRow1, exRow2, exRow3] ∧
    sortData "SetCount" "desc"
      (sortData "SetCount" "asc" [exRow1, exRow2, exRow3]) =
      [exRow3, exRow2, exRow1] := by
  refine ⟨?_, by decide, by decide⟩
  intro f d rows
  simp only [sortData, specComparator, threeWay_eq_specThreeWay]

/-- Claim C7: with failing validation, add-set is a complete no-op (no
remote call, no state change); when validation passes and both the
remote creation and the reload succeed, the form scalars are cleared,
the creation call is followed by a full set re-fetch (no incremental
insert), the fetched list replaces both set lists, and the statistics
are recomputed from it; when the remote creation fails, an error toast
is surfaced, the form retains what the user typed, and no re-fetch
happens. Form validity is an oracle argument, as `validateForm` reads
the rendered inputs of the template, which is not among the sources. -/
theorem C7_add_set_flow :
    (∀ (s : LoggerState) (cres : Except Unit Unit)
      (rres : Except Unit (List WSet)),
      handleAddSet s false cres rres = s) ∧
    (∀ (s : LoggerState) (sets : List WSet),
      (handleAddSet s true (.ok ()) (.ok sets)).reps = none ∧
      (handleAddSet s true (.ok ()) (.ok sets)).weight = none ∧
      (handleAddSet s true (.ok ()) (.ok sets)).rpe = none ∧
      (handleAddSet s true (.ok ()) (.ok sets)).notes = none ∧
      (handleAddSet s true (.ok ()) (.ok sets)).calls = s.calls ++
        [RemoteCall.createWorkoutSet s.sessionId s.selectedExerciseId s.reps
          s.weight s.unit s.rpe s.notes,
         RemoteCall.getWorkoutSets s.sessionId] ∧
      (handleAddSet s true (.ok ()) (.ok sets)).allLoggedSets = sets ∧
      (handleAddSet s true (.ok ()) (.ok sets)).loggedSets = sets ∧
      statsFields (handleAddSet s true (.ok ()) (.ok sets)) =
        calcStats sets) ∧
    (∀ (s : LoggerState) (e : Unit) (rres : Except Unit (List WSet)),
      (handleAddSet s true (.error e) rres).reps = s.reps ∧
      (handleAddSet s true (.error e) rres).weight = s.weight ∧
      (handleAddSet s true (.error e) rres).rpe = s.rpe ∧
      (handleAddSet s true (.error e) rres).notes = s.notes ∧
      (handleAddSet s true (.error e) rres).allLoggedSets = s.allLoggedSets ∧
      (handleAddSet s true (.error e) rres).calls = s.calls ++
        [RemoteCall.createWorkoutSet s.sessionId s.selectedExerciseId s.reps
          s.weight s.unit s.rpe s.notes] ∧
      (⟨"Error", "Failed to add workout set", "error"⟩ : Toast) ∈
        (handleAddSet s true (.error e) rres).toasts) := by
  refine ⟨fun s cres rres => rfl,
    fun s sets => ⟨rfl, rfl, rfl, rfl, ?_, rfl, rfl, rfl⟩,
    fun s e rres => ⟨rfl, rfl, rfl, rfl, rfl, rfl, ?_⟩⟩ <;>
    simp [handleAddSet, loadWorkoutSets, handleClearForm, showToast, logCall,
      calculateStatistics]

/-- Claim C8: every muscle-group change stores the new group and clears
the previously selected exercise; the exercise fetch is issued exactly
when the chosen group value is truthy; a failed fetch leaves the
exercise option list empty (the clearing precedes the fetch, so failure
exposes the cleared list) with no retry, and an empty group choice also
leaves it empty. -/
theorem C8_muscle_group_change :
    (∀ (s : LoggerState) (v : String) (res : Except Unit (List Exercise)),
      (handleMuscleGroupChange s v res).selectedExerciseId = none ∧
      (handleMuscleGroupChange s v res).selectedMuscleGroup = some v ∧
      (handleMuscleGroupChange s v res).calls = s.calls ++
        (if v = "" then [] else [RemoteCall.getExercisesByMuscleGroup v])) ∧
    (∀ (s : LoggerState) (v : String) (e : Unit),
      (handleMuscleGroupChange s v (.error e)).exerciseOptions = []) ∧
    (∀ (s : LoggerState) (res : Except Unit (List Exercise)),
      (handleMuscleGroupChange s "" res).exerciseOptions = []) ∧
    (∀ (s : LoggerState) (v : String) (exs : List Exercise),
      (handleMuscleGroupChange s v (.ok exs)).exerciseOptions =
        (if v = "" then []
          else exs.map (fun ex => (⟨ex.Name, ex.Id⟩ : SelOption)))) := by
  refine ⟨?_, ?_, ?_, ?_⟩
  · intro s v res
    by_cases hv : v = "" <;> rcases res with e | exs <;>
      refine ⟨?_, ?_, ?_⟩ <;>
        simp [handleMuscleGroupChange, logCall, hv]
  · intro s v e
    by_cases hv : v = "" <;> simp [handleMuscleGroupChange, logCall, hv]
  · rintro s (e | exs) <;> rfl
  · intro s v exs
    by_cases hv : v = "" <;> simp [handleMuscleGroupChange, logCall, hv]

end WorkoutLogger
